import Mathlib

/-
Verification of the core data model and aggregation logic of the
LeetCode SQL daily tracker (src/app.py): history store shape and
migration, streak calculation, all-time totals, trailing chart window
and forward status cards, and the sidebar save paths.

Dates are modelled as integers (day numbers); a step of one day in the
source (`timedelta(days=1)`) is a step of one on the integer. Keys of
the stored mapping are either the reserved configuration key
`leetcode_list_url` or a calendar-date key. JSON values at a key are a
bare integer (legacy shape), a record with optional `easy`, `medium`,
`hard` fields (a Python dict; a missing field is `Option.none`), or a
string. Python dicts are modelled as association lists with unique
keys; `dict.get` is first-match lookup.
-/

namespace Tracker

/-- A key of the stored mapping: the reserved configuration key
`leetcode_list_url`, or a calendar-date key (dates as day numbers). -/
inductive Key where
  | url : Key
  | date : Int → Key
deriving DecidableEq

/-- A stored JSON value: a legacy bare integer, a record with optional
difficulty fields (modelling a Python dict that may miss a field), or a
string (the configuration URL, or a malformed entry). -/
inductive StoreValue where
  | intv : Int → StoreValue
  | dictv : Option Int → Option Int → Option Int → StoreValue
  | strv : String → StoreValue
deriving DecidableEq

/-- The history store: the app's `data` dict, as an association list. -/
abbrev Store := List (Key × StoreValue)

/-- Python `data.get(key, None)`: first-match lookup in the mapping. -/
def storeGet : Store → Key → Option StoreValue
  | [], _ => none
  | (k, v) :: rest, k0 =>
      if k = k0 then some v else storeGet rest k0

/-- Python `data[key] = value` on a dict: update in place if the key is
present, otherwise append the new binding. -/
def storeSet : Store → Key → StoreValue → Store
  | [], k, v => [(k, v)]
  | (k0, v0) :: rest, k, v =>
      if k0 = k then (k, v) :: rest else (k0, v0) :: storeSet rest k v

/-- `DAILY_GOAL = 25` (src/app.py line 13). -/
def DAILY_GOAL : Int := 25

/-- How `calculate_current_streak` reads one day's value
(src/app.py lines 76-87): a bare integer is the count itself, a dict
contributes `get('easy',0) + get('medium',0) + get('hard',0)`, and any
other shape leaves `questions_solved` at its initial 0. -/
def dictSolved : StoreValue → Int
  | .intv n => n
  | .dictv e m h => e.getD 0 + m.getD 0 + h.getD 0
  | .strv _ => 0

/-- One iteration's lookup in `calculate_current_streak`
(src/app.py lines 74-87): `none` means the `break` on a missing
entry for a day other than today; otherwise the solved count for the
day (0 when today is missing, per the special case at lines 77-79). -/
def streakSolvedAt (data : Store) (today d : Int) : Option Int :=
  match storeGet data (Key.date d) with
  | none => if d = today then some 0 else none
  | some v => some (dictSolved v)

/-- The `while` loop of `calculate_current_streak`
(src/app.py lines 72-94), recursing over the list of dates it visits:
stop with the accumulated streak at the first `break`, increment on a
day meeting the goal. -/
def streakFrom (data : Store) (goal today : Int) : List Int → Nat
  | [] => 0
  | d :: rest =>
      match streakSolvedAt data today d with
      | none => 0
      | some qs => if goal ≤ qs then 1 + streakFrom data goal today rest else 0

/-- `calculate_current_streak(data, daily_goal)` (src/app.py lines
64-95) with the wall-clock `today` made explicit: walk backward from
`today` while `current_date >= today - 365*2`, i.e. over the dates
`today, today-1, ..., today-730`. -/
def calculate_current_streak (data : Store) (goal today : Int) : Nat :=
  streakFrom data goal today ((List.range 731).map (fun i : Nat => today - (i : Int)))

/-- The per-entry body of the migration loop in `load_data`
(src/app.py lines 26-34): the reserved key is kept as is, a bare
integer becomes `{easy: value, medium: 0, hard: 0}`, a dict having all
three difficulty keys is kept, and anything else is skipped (returns
`none`, which `load_data` turns into a warning). -/
def migrateEntry : Key × StoreValue → Option (Key × StoreValue)
  | (Key.url, v) => some (Key.url, v)
  | (Key.date d, .intv n) =>
      some (Key.date d, .dictv (some n) (some 0) (some 0))
  | (Key.date d, .dictv (some e) (some m) (some h)) =>
      some (Key.date d, .dictv (some e) (some m) (some h))
  | (Key.date _, _) => none

/-- The migrated mapping returned by `load_data`
(src/app.py lines 22-35). -/
def load_data (s : Store) : Store :=
  s.filterMap migrateEntry

/-- The keys for which `load_data` emits the `st.warning` about an
unexpected data format (src/app.py line 34). -/
def load_warnings (s : Store) : List Key :=
  (s.filter (fun p => (migrateEntry p).isNone)).map Prod.fst

/-- `questions_solved_today` (src/app.py lines 260-262):
`data.get(today, {})` then three `.get` field reads. A bare integer or
string at today's key has no `.get` method, so the read raises an
`AttributeError`, modelled as `none`. -/
def questions_solved_today (data : Store) (today : Int) : Option Int :=
  match storeGet data (Key.date today) with
  | none => some 0
  | some (.dictv e m h) => some (e.getD 0 + m.getD 0 + h.getD 0)
  | some _ => none

/-- The `isinstance(v, dict)` guard in `total_solved_all_time`
(src/app.py line 268). -/
def isRecord : StoreValue → Bool
  | .dictv _ _ _ => true
  | _ => false

/-- `total_solved_all_time` (src/app.py lines 266-269): sum of the
three `.get` field reads over entries whose key is not the reserved
key and whose value is a dict. -/
def total_solved_all_time (data : Store) : Int :=
  ((data.filter (fun p => decide (p.1 ≠ Key.url) && isRecord p.2)).map
    (fun p => dictSolved p.2)).sum

/-- The values of `daily_progress_data_only` (src/app.py line 222), in
insertion order: the store's values with the reserved key filtered out.
`pd.DataFrame.from_dict(..., orient='index')` dispatches on the first
of these values. -/
def dateValues (data : Store) : List StoreValue :=
  (data.filter (fun p => decide (p.1 ≠ Key.url))).map Prod.snd

/-- One row of the chart window in the nested-dict regime of
`pd.DataFrame.from_dict(..., orient='index')` (src/app.py lines
224-237), i.e. when the frame is built from the stored dicts: the
dict's fields with missing fields filled with 0 by
`reindex(columns=...).fillna(0)`, and the zero record for a date with
no row after `reindex(full_date_range).fillna(0)`. -/
def recordOf (data : Store) (d : Int) : Int × Int × Int :=
  match storeGet data (Key.date d) with
  | some (.dictv e m h) => (e.getD 0, m.getD 0, h.getD 0)
  | _ => (0, 0, 0)

/-- The trailing window in the nested-dict regime (src/app.py lines
230-238): `full_date_range` is `start_date + x for x in range(days)`
with `start_date = today - (days-1)`; each date gets its stored record,
zero-filled when absent. -/
def chartWindow (data : Store) (wL : Nat) (today : Int) :
    List (Int × (Int × Int × Int)) :=
  (List.range wL).map (fun x : Nat =>
    (today - ((wL : Int) - 1) + (x : Int),
     recordOf data (today - ((wL : Int) - 1) + (x : Int))))

/-- The trailing window in the single-column regime: when the first
date-keyed value is not a dict, the `DataFrame` constructor wraps the
raw values in one column named `0`, which
`reindex(columns=['easy','medium','hard'])` (src/app.py line 225)
drops, so every row of the window reads as the zero record, including
rows whose stored value was a dict. -/
def zeroWindow (wL : Nat) (today : Int) : List (Int × (Int × Int × Int)) :=
  (List.range wL).map (fun x : Nat =>
    (today - ((wL : Int) - 1) + (x : Int), ((0, 0, 0) : Int × Int × Int)))

/-- `df_chart_display` (src/app.py lines 222-238), including the
dispatch of `pd.DataFrame.from_dict(..., orient='index')` at line 224
on the first date-keyed value: with no date-keyed entries the empty
frame reindexes to an all-zero window; with a dict first value pandas
builds the nested-dict frame, raising `AttributeError` (no window at
all, modelled `none`) if any other value has no `.items()`; with a
non-dict first value the raw values become a single dropped column and
every row reads as the zero record. -/
def df_chart_display (data : Store) (wL : Nat) (today : Int) :
    Option (List (Int × (Int × Int × Int))) :=
  match dateValues data with
  | [] => some (chartWindow data wL today)
  | v :: rest =>
      if isRecord v then
        if rest.all isRecord then some (chartWindow data wL today) else none
      else some (zeroWindow wL today)

/-- The fill loop for the status cards (src/app.py lines 536-542): a
date inside the card range keeps its dict's field values (missing
fields default to 0 via `.get`); any non-dict value is skipped by the
`isinstance` guard, leaving the initial zeros. -/
def statusFill (data : Store) (d : Int) : Int × Int × Int :=
  match storeGet data (Key.date d) with
  | some (.dictv e m h) => (e.getD 0, m.getD 0, h.getD 0)
  | _ => (0, 0, 0)

/-- Classification of one status card (src/app.py lines 547-574). -/
inductive CardStatus where
  | upcoming : CardStatus
  | goalMet : CardStatus
  | belowGoal : CardStatus
deriving DecidableEq

/-- One status card (src/app.py lines 553-574): the percentage is
`min(100, solved/goal*100)` for `goal > 0` else 0; a date strictly
after today is `Upcoming` with the percentage overwritten to 0; else
`Met Goal` (solved ≥ goal) or `Below Goal`. -/
def statusCard (data : Store) (goal today d : Int) : CardStatus × ℚ :=
  let r := statusFill data d
  let solved : Int := r.1 + r.2.1 + r.2.2
  let pct : ℚ := if 0 < goal then min 100 ((solved : ℚ) / (goal : ℚ) * 100) else 0
  if today < d then (CardStatus.upcoming, 0)
  else if goal ≤ solved then (CardStatus.goalMet, pct)
  else (CardStatus.belowGoal, pct)

/-- `df_status_cards` and the card loop (src/app.py lines 532-574):
cards for the dates `today + x for x in range(days)`, in order. -/
def df_status_cards (data : Store) (goal : Int) (wL : Nat) (today : Int) :
    List (Int × CardStatus × ℚ) :=
  (List.range wL).map (fun i : Nat =>
    (today + (i : Int), statusCard data goal today (today + (i : Int))))

/-- The `Save Progress` handler (src/app.py lines 329-331):
`data[date_str] = easy/medium/hard dict` for the sidebar-selected
date. The date picker at line 298 has `max_value=today`, so the
selected date is at most today; that bound is taken as a hypothesis
where needed. -/
def save_progress (data : Store) (d easy medium hard : Int) : Store :=
  storeSet data (Key.date d) (.dictv (some easy) (some medium) (some hard))

/-- The list-URL update path (src/app.py lines 344-346):
`data["leetcode_list_url"] = new_url`. -/
def update_leetcode_list_url (data : Store) (u : String) : Store :=
  storeSet data Key.url (.strv u)

/-- `get_user_data_from_firestore` (src/app.py lines 177-186): the
stored document when one exists, otherwise a fresh store holding only
the reserved key with the default list URL; an empty store when not
logged in. -/
def get_user_data_from_firestore (loggedIn : Bool) (storedDoc : Option Store) :
    Store :=
  if loggedIn then
    match storedDoc with
    | some d => d
    | none => [(Key.url, StoreValue.strv "https://leetcode.com/problem-list/n7bysmt7/")]
  else []

/-- The sum of per-day totals over the date-keyed entries, written
after the spec's words for `totalAllTime` (spec section 4.1), for
comparison with `total_solved_all_time`. -/
def totalAllTime_spec (data : Store) : Int :=
  ((data.filter (fun p => decide (p.1 ≠ Key.url))).map
    (fun p => dictSolved p.2)).sum

/-- The spec's invariant on one loaded value, written after the spec's
words (section 3): a record with all three fields present and
non-negative. -/
def valueNormalized : StoreValue → Bool
  | .dictv (some e) (some m) (some h) =>
      decide (0 ≤ e) && decide (0 ≤ m) && decide (0 ≤ h)
  | _ => false

/-- The spec's invariant on a loaded store, written after the spec's
words (section 3): every DailyRecord has all three fields present and
non-negative. -/
def storeNormalized (s : Store) : Bool :=
  s.all (fun p => decide (p.1 = Key.url) || valueNormalized p.2)

/- Helper lemmas -/

/-- `streakFrom` only depends on `streakSolvedAt` at the visited dates. -/
lemma streakFrom_congr (a b : Store) (goal today : Int) :
    ∀ l : List Int, (∀ d ∈ l, streakSolvedAt a today d = streakSolvedAt b today d) →
      streakFrom a goal today l = streakFrom b goal today l := by
  intro l
  induction l with
  | nil => intro _; rfl
  | cons d rest ih =>
    intro hl
    have hd := hl d (List.mem_cons_self d rest)
    have hrest := ih (fun x hx => hl x (List.mem_cons_of_mem _ hx))
    simp only [streakFrom, hd, hrest]

/-- The streak loop counts at most the days it visits. -/
lemma streakFrom_le_length (data : Store) (goal today : Int) :
    ∀ l : List Int, streakFrom data goal today l ≤ l.length := by
  intro l
  induction l with
  | nil => exact Nat.le_refl 0
  | cons d rest ih =>
    simp only [streakFrom, List.length_cons]
    cases streakSolvedAt data today d with
    | none => exact Nat.zero_le _
    | some qs =>
      by_cases hq : goal ≤ qs
      · simp only [hq, if_true]
        omega
      · simp [hq]

/-- A legacy bare integer and its migrated record are read the same way
by the streak loop's per-day lookup. -/
lemma streakSolvedAt_legacy (d v : Int) (rest : Store) (today q : Int) :
    streakSolvedAt ((Key.date d, StoreValue.intv v) :: rest) today q =
      streakSolvedAt ((Key.date d, StoreValue.dictv (some v) (some 0) (some 0)) :: rest) today q := by
  unfold streakSolvedAt storeGet
  by_cases hk : Key.date d = Key.date q
  · simp [hk, dictSolved]
  · simp [hk]

/-- Shape of the values kept by `load_data`: every date-keyed value in
the migrated store is a record with all three fields present. -/
lemma load_data_shape (s : Store) (k : Key) (v : StoreValue)
    (hmem : (k, v) ∈ load_data s) (hk : k ≠ Key.url) :
    ∃ e m h : Int, v = StoreValue.dictv (some e) (some m) (some h) := by
  obtain ⟨⟨ka, va⟩, _, hmig⟩ := List.mem_filterMap.mp hmem
  unfold migrateEntry at hmig
  split at hmig
  · exact absurd (congrArg Prod.fst (Option.some.inj hmig)).symm hk
  · obtain ⟨hk1, hv1⟩ := Prod.mk.injEq .. ▸ Option.some.inj hmig
    exact ⟨_, 0, 0, hv1.symm⟩
  · obtain ⟨hk1, hv1⟩ := Prod.mk.injEq .. ▸ Option.some.inj hmig
    exact ⟨_, _, _, hv1.symm⟩
  · exact absurd hmig (by simp)

/-- Every entry of the input is either migrated into the result or
warned about: the load never drops an entry silently and never aborts. -/
lemma load_data_accounting (s : Store) :
    (load_data s).length + (load_warnings s).length = s.length := by
  induction s with
  | nil => rfl
  | cons p rest ih =>
    cases hp : migrateEntry p with
    | none =>
      have h1 : load_data (p :: rest) = load_data rest := by
        simp [load_data, List.filterMap_cons, hp]
      have h2 : load_warnings (p :: rest) = p.1 :: load_warnings rest := by
        simp [load_warnings, List.filter_cons, hp]
      rw [h1, h2]
      simp only [List.length_cons]
      omega
    | some q =>
      have h1 : load_data (p :: rest) = q :: load_data rest := by
        simp [load_data, List.filterMap_cons, hp]
      have h2 : load_warnings (p :: rest) = load_warnings rest := by
        simp [load_warnings, List.filter_cons, hp]
      rw [h1, h2]
      simp only [List.length_cons]
      omega

/-- A first visited day whose computed solved count is 0 breaks the
walk immediately for any positive goal. -/
lemma streakFrom_break_head (data : Store) (goal today d : Int) (rest : List Int)
    (h0 : streakSolvedAt data today d = some 0) (hgoal : 0 < goal) :
    streakFrom data goal today (d :: rest) = 0 := by
  simp only [streakFrom, h0]
  rw [if_neg (by omega)]

/-- If today's key has no entry, the very first loop iteration computes
`questions_solved = 0`, which fails the threshold check for any positive
goal, so the walk breaks immediately with streak 0. -/
lemma streak_today_absent (data : Store) (goal today : Int)
    (hnone : storeGet data (Key.date today) = none) (hgoal : 0 < goal) :
    calculate_current_streak data goal today = 0 := by
  unfold calculate_current_streak
  rw [show (731 : Nat) = 730 + 1 from rfl, List.range_succ_eq_map]
  refine streakFrom_break_head data goal today _ _ ?_ hgoal
  show streakSolvedAt data today (today - ((0 : Nat) : Int)) = some 0
  unfold streakSolvedAt
  rw [show today - ((0 : Nat) : Int) = today by simp, hnone]
  show (if today = today then some (0 : Int) else none) = some 0
  rw [if_pos rfl]

/-- Updating one key leaves lookups of every other key unchanged. -/
lemma storeGet_storeSet_ne (s : Store) (k k0 : Key) (v : StoreValue) (h : k ≠ k0) :
    storeGet (storeSet s k v) k0 = storeGet s k0 := by
  induction s with
  | nil => simp [storeSet, storeGet, h]
  | cons p rest ih =>
    obtain ⟨k1, v1⟩ := p
    unfold storeSet
    by_cases h1 : k1 = k
    · subst h1
      rw [if_pos rfl]
      simp [storeGet, h]
    · rw [if_neg h1]
      simp only [storeGet]
      by_cases h2 : k1 = k0
      · simp [h2]
      · simp [h2, ih]

/-- Dict assignment introduces no key other than the assigned one. -/
lemma storeSet_keys (s : Store) (k : Key) (v : StoreValue) :
    ∀ k0, k0 ∈ (storeSet s k v).map Prod.fst → k0 ∈ s.map Prod.fst ∨ k0 = k := by
  induction s with
  | nil =>
    intro k0 hm
    simp [storeSet] at hm
    exact Or.inr hm
  | cons p rest ih =>
    intro k0 hm
    obtain ⟨k1, v1⟩ := p
    unfold storeSet at hm
    by_cases h1 : k1 = k
    · rw [if_pos h1] at hm
      simp only [List.map_cons, List.mem_cons] at hm ⊢
      rcases hm with hm | hm
      · exact Or.inr hm
      · exact Or.inl (Or.inr hm)
    · rw [if_neg h1] at hm
      simp only [List.map_cons, List.mem_cons] at hm ⊢
      rcases hm with hm | hm
      · exact Or.inl (Or.inl hm)
      · rcases ih k0 hm with h2 | h2
        · exact Or.inl (Or.inr h2)
        · exact Or.inr h2

/- Claim theorems -/

set_option maxRecDepth 10000 in
/-- Claim C1 (code_bug evaluation): on the spec's own example history
`(D-1 : 30, D-2 : 30, D : absent)` with goal 25, `calculate_current_streak`
returns 0, not the 2 the claim states: when today has no entry the code
sets `questions_solved = 0` and then still runs the threshold check,
which breaks the walk immediately for any positive goal. -/
theorem streak_absent_today_returns_zero :
    calculate_current_streak
      [(Key.date (-1), StoreValue.dictv (some 30) (some 0) (some 0)),
       (Key.date (-2), StoreValue.dictv (some 30) (some 0) (some 0))] DAILY_GOAL 0 = 0 ∧
    calculate_current_streak
      [(Key.date (-1), StoreValue.dictv (some 30) (some 0) (some 0)),
       (Key.date (-2), StoreValue.dictv (some 30) (some 0) (some 0))] DAILY_GOAL 0 ≠ 2 := by
  decide

/-- Claim C2 (counterexample): a legacy bare integer 12 at a date key is
not read identically to the record `(easy 12, medium 0, hard 0)` by
every aggregation: `total_solved_all_time` skips non-dict values, so the
legacy value contributes 0 while the record contributes 12. -/
theorem total_ignores_legacy_int_cex :
    total_solved_all_time [(Key.date 0, StoreValue.intv 12)] = 0 ∧
    total_solved_all_time [(Key.date 0, StoreValue.dictv (some 12) (some 0) (some 0))] = 12 ∧
    total_solved_all_time [(Key.date 0, StoreValue.intv 12)] ≠
      total_solved_all_time [(Key.date 0, StoreValue.dictv (some 12) (some 0) (some 0))] := by
  decide

/-- Claim C2 (amended): only `calculate_current_streak` reads a legacy
bare integer `v` identically to the record `(easy v, medium 0, hard 0)`;
`total_solved_all_time` skips bare-integer entries (they contribute 0),
the status-card fill loop and the chart window read them as the zero
record, the solved-today lookup fails on one at today's key, and only
after `load_data` migration is a legacy value turned into the record
shape that every aggregation then reads as `(easy v, medium 0, hard 0)`. -/
theorem legacy_int_reading_amended :
    (∀ (d v goal today : Int) (rest : Store),
      calculate_current_streak ((Key.date d, StoreValue.intv v) :: rest) goal today =
        calculate_current_streak
          ((Key.date d, StoreValue.dictv (some v) (some 0) (some 0)) :: rest) goal today) ∧
    (∀ (d v : Int) (rest : Store),
      total_solved_all_time ((Key.date d, StoreValue.intv v) :: rest) =
        total_solved_all_time rest) ∧
    (∀ d v : Int, statusFill [(Key.date d, StoreValue.intv v)] d = (0, 0, 0)) ∧
    (∀ d v : Int, recordOf [(Key.date d, StoreValue.intv v)] d = (0, 0, 0)) ∧
    (∀ d v : Int, questions_solved_today [(Key.date d, StoreValue.intv v)] d = none) ∧
    (∀ (d v : Int) (rest : Store),
      load_data ((Key.date d, StoreValue.intv v) :: rest) =
        (Key.date d, StoreValue.dictv (some v) (some 0) (some 0)) :: load_data rest) := by
  refine ⟨?_, ?_, ?_, ?_, ?_, ?_⟩
  · intro d v goal today rest
    unfold calculate_current_streak
    exact streakFrom_congr _ _ goal today _
      (fun q _ => streakSolvedAt_legacy d v rest today q)
  · intro d v rest
    simp [total_solved_all_time, List.filter_cons, isRecord]
  · intro d v
    simp [statusFill, storeGet]
  · intro d v
    simp [recordOf, storeGet]
  · intro d v
    simp [questions_solved_today, storeGet]
  · intro d v rest
    rfl

/-- Claim C3 (counterexample): `load_data` does not normalize a negative
difficulty field to 0: a record with `easy = -1` passes through the
migration unchanged, so the loaded store violates the non-negativity
invariant. -/
theorem load_preserves_negative_cex :
    load_data [(Key.date 0, StoreValue.dictv (some (-1)) (some 0) (some 0))] =
      [(Key.date 0, StoreValue.dictv (some (-1)) (some 0) (some 0))] ∧
    storeNormalized
      (load_data [(Key.date 0, StoreValue.dictv (some (-1)) (some 0) (some 0))]) = false := by
  decide

/-- Claim C3 (amended): a stored record with a missing difficulty field
is skipped by `load_data` (not normalized to 0), so after load every
date-keyed value is a record with all three fields present; but
negative field values are passed through unchanged, not normalized. -/
theorem load_shape_amended (s : Store) (k : Key) (v : StoreValue)
    (hmem : (k, v) ∈ load_data s) (hk : k ≠ Key.url) :
    (∃ e m h : Int, v = StoreValue.dictv (some e) (some m) (some h)) ∧
    (∀ d e m h : Int,
      load_data [(Key.date d, StoreValue.dictv (some e) (some m) (some h))] =
        [(Key.date d, StoreValue.dictv (some e) (some m) (some h))]) ∧
    (∀ d e h : Int,
      load_data [(Key.date d, StoreValue.dictv (some e) none (some h))] = []) := by
  refine ⟨load_data_shape s k v hmem hk, ?_, ?_⟩
  · intro d e m h
    rfl
  · intro d e h
    rfl

/-- Claim C3 (witness for the amended theorem): the legacy value -5 is
migrated into a record with all fields present (here with a negative
field preserved). -/
theorem load_shape_amended_witness :
    ((Key.date 0, StoreValue.dictv (some (-5)) (some 0) (some 0)) ∈
        load_data [(Key.date 0, StoreValue.intv (-5))]) ∧
    Key.date 0 ≠ Key.url ∧
    ((∃ e m h : Int,
        StoreValue.dictv (some (-5)) (some 0) (some 0) =
          StoreValue.dictv (some e) (some m) (some h)) ∧
      (∀ d e m h : Int,
        load_data [(Key.date d, StoreValue.dictv (some e) (some m) (some h))] =
          [(Key.date d, StoreValue.dictv (some e) (some m) (some h))]) ∧
      (∀ d e h : Int,
        load_data [(Key.date d, StoreValue.dictv (some e) none (some h))] = [])) :=
  ⟨by decide, by decide,
    load_shape_amended [(Key.date 0, StoreValue.intv (-5))] (Key.date 0)
      (StoreValue.dictv (some (-5)) (some 0) (some 0)) (by decide) (by decide)⟩

/-- Window shape in the nested-dict regime: `wL` entries, the `i`-th
for the date `today - (wL-1) + i`, absent dates zero-filled. -/
lemma chartWindow_spec (data : Store) (wL : Nat) (today : Int) (hw : 0 < wL) :
    (chartWindow data wL today).length = wL ∧
    (∀ i : Nat, i < wL →
      ∃ r, (chartWindow data wL today)[i]? =
          some (today - ((wL : Int) - 1) + (i : Int), r) ∧
        (storeGet data (Key.date (today - ((wL : Int) - 1) + (i : Int))) = none →
          r = (0, 0, 0))) ∧
    (∃ r, (chartWindow data wL today)[wL - 1]? = some (today, r)) := by
  have hentry : ∀ i : Nat, i < wL →
      (chartWindow data wL today)[i]? =
        some (today - ((wL : Int) - 1) + (i : Int),
          recordOf data (today - ((wL : Int) - 1) + (i : Int))) := by
    intro i hi
    unfold chartWindow
    rw [List.getElem?_map, List.getElem?_range hi]
    rfl
  refine ⟨by simp [chartWindow], ?_, ?_⟩
  · intro i hi
    refine ⟨recordOf data (today - ((wL : Int) - 1) + (i : Int)), hentry i hi, ?_⟩
    intro h0
    simp [recordOf, h0]
  · refine ⟨recordOf data today, ?_⟩
    have hlast := hentry (wL - 1) (by omega)
    have hcast : ((wL - 1 : Nat) : Int) = (wL : Int) - 1 := by omega
    have harg : today - ((wL : Int) - 1) + ((wL : Int) - 1) = today := by ring
    rw [hlast, hcast, harg]

/-- Window shape in the single-column regime: `wL` entries for the same
dates, every one the zero record. -/
lemma zeroWindow_spec (data : Store) (wL : Nat) (today : Int) (hw : 0 < wL) :
    (zeroWindow wL today).length = wL ∧
    (∀ i : Nat, i < wL →
      ∃ r, (zeroWindow wL today)[i]? =
          some (today - ((wL : Int) - 1) + (i : Int), r) ∧
        (storeGet data (Key.date (today - ((wL : Int) - 1) + (i : Int))) = none →
          r = (0, 0, 0))) ∧
    (∃ r, (zeroWindow wL today)[wL - 1]? = some (today, r)) := by
  have hentry : ∀ i : Nat, i < wL →
      (zeroWindow wL today)[i]? =
        some (today - ((wL : Int) - 1) + (i : Int), ((0, 0, 0) : Int × Int × Int)) := by
    intro i hi
    unfold zeroWindow
    rw [List.getElem?_map, List.getElem?_range hi]
    rfl
  refine ⟨by simp [zeroWindow], ?_, ?_⟩
  · intro i hi
    exact ⟨(0, 0, 0), hentry i hi, fun _ => rfl⟩
  · refine ⟨(0, 0, 0), ?_⟩
    have hlast := hentry (wL - 1) (by omega)
    have hcast : ((wL - 1 : Nat) : Int) = (wL : Int) - 1 := by omega
    have harg : today - ((wL : Int) - 1) + ((wL : Int) - 1) = today := by ring
    rw [hlast, hcast, harg]

/-- Claim C4 (counterexample): on a history mixing a record with a
legacy bare integer (record first), `pd.DataFrame.from_dict` takes the
nested-dict path and raises `AttributeError` on the integer, so the
chart pipeline produces no window at all, refuting the claim that the
trailing window has exactly `windowLength` entries for every history. -/
theorem trailing_window_mixed_crash_cex :
    df_chart_display
      [(Key.date 0, StoreValue.dictv (some 30) (some 0) (some 0)),
       (Key.date 1, StoreValue.intv 12)] 7 0 = none ∧
    ∀ l : List (Int × (Int × Int × Int)),
      df_chart_display
        [(Key.date 0, StoreValue.dictv (some 30) (some 0) (some 0)),
         (Key.date 1, StoreValue.intv 12)] 7 0 ≠ some l := by
  refine ⟨by decide, ?_⟩
  intro l h
  rw [show df_chart_display
      [(Key.date 0, StoreValue.dictv (some 30) (some 0) (some 0)),
       (Key.date 1, StoreValue.intv 12)] 7 0 = none by decide] at h
  exact Option.noConfusion h

/-- Claim C4 (amended): whenever the chart pipeline accepts the history
and returns a window (date-keyed values all records, all non-records,
or none; a record-first history mixed with bare values raises instead),
that window has exactly `wL` entries, its `i`-th entry is for the date
`today - (wL-1) + i` (so the dates run from `today - (wL-1)` up to
`today`, in ascending order), and every date with no entry in the
history is filled with the zero record. -/
theorem trailing_window_amended (data : Store) (wL : Nat) (today : Int)
    (l : List (Int × (Int × Int × Int)))
    (hw : 0 < wL) (hok : df_chart_display data wL today = some l) :
    l.length = wL ∧
    (∀ i : Nat, i < wL →
      ∃ r, l[i]? = some (today - ((wL : Int) - 1) + (i : Int), r) ∧
        (storeGet data (Key.date (today - ((wL : Int) - 1) + (i : Int))) = none →
          r = (0, 0, 0))) ∧
    (∃ r, l[wL - 1]? = some (today, r)) := by
  unfold df_chart_display at hok
  split at hok
  · have hl := (Option.some.inj hok).symm
    subst hl
    exact chartWindow_spec data wL today hw
  · split at hok
    · split at hok
      · have hl := (Option.some.inj hok).symm
        subst hl
        exact chartWindow_spec data wL today hw
      · exact Option.noConfusion hok
    · have hl := (Option.some.inj hok).symm
      subst hl
      exact zeroWindow_spec data wL today hw

/-- Claim C4 (witness for the amended theorem): a two-day window over a
single-record history, with yesterday zero-filled and today's record. -/
theorem trailing_window_amended_witness :
    0 < 2 ∧
    df_chart_display [(Key.date 0, StoreValue.dictv (some 1) (some 2) (some 3))] 2 0 =
      some [((-1 : Int), ((0, 0, 0) : Int × Int × Int)), (0, (1, 2, 3))] ∧
    (([((-1 : Int), ((0, 0, 0) : Int × Int × Int)), (0, (1, 2, 3))] :
        List (Int × (Int × Int × Int))).length = 2 ∧
      (∀ i : Nat, i < 2 →
        ∃ r, ([((-1 : Int), ((0, 0, 0) : Int × Int × Int)), (0, (1, 2, 3))] :
            List (Int × (Int × Int × Int)))[i]? =
            some (0 - ((2 : Int) - 1) + (i : Int), r) ∧
          (storeGet [(Key.date 0, StoreValue.dictv (some 1) (some 2) (some 3))]
              (Key.date (0 - ((2 : Int) - 1) + (i : Int))) = none → r = (0, 0, 0))) ∧
      (∃ r, ([((-1 : Int), ((0, 0, 0) : Int × Int × Int)), (0, (1, 2, 3))] :
          List (Int × (Int × Int × Int)))[2 - 1]? = some (0, r))) :=
  ⟨by decide, by decide,
    trailing_window_amended [(Key.date 0, StoreValue.dictv (some 1) (some 2) (some 3))] 2 0
      [((-1 : Int), ((0, 0, 0) : Int × Int × Int)), (0, (1, 2, 3))]
      (by decide) (by decide)⟩

/-- Claim C5: every status card whose date is strictly after today is
classified Upcoming with its displayed percentage forced to 0, whatever
the history holds for that date. -/
theorem future_cards_upcoming (data : Store) (goal : Int) (wL : Nat) (today : Int)
    (d : Int) (st : CardStatus) (pct : ℚ)
    (hmem : (d, st, pct) ∈ df_status_cards data goal wL today) (hd : today < d) :
    st = CardStatus.upcoming ∧ pct = 0 := by
  obtain ⟨i, _, hi⟩ := List.mem_map.mp hmem
  have hdate : today + (i : Int) = d := congrArg Prod.fst hi
  have hcard : statusCard data goal today (today + (i : Int)) = (st, pct) :=
    congrArg Prod.snd hi
  rw [hdate] at hcard
  have hup : statusCard data goal today d = (CardStatus.upcoming, 0) := by
    unfold statusCard
    simp [hd]
  rw [hup] at hcard
  exact ⟨(congrArg Prod.fst hcard).symm, (congrArg Prod.snd hcard).symm⟩

set_option maxRecDepth 10000 in
/-- Claim C5 (witness): a record of total 30 logged for tomorrow still
yields an Upcoming card at 0 percent. -/
theorem future_cards_upcoming_witness :
    (((1 : Int), CardStatus.upcoming, (0 : ℚ)) ∈
      df_status_cards [(Key.date 1, StoreValue.dictv (some 30) (some 0) (some 0))]
        DAILY_GOAL 2 0) ∧
    (0 : Int) < 1 ∧
    (CardStatus.upcoming = CardStatus.upcoming ∧ (0 : ℚ) = 0) :=
  ⟨by decide, by decide,
    future_cards_upcoming [(Key.date 1, StoreValue.dictv (some 30) (some 0) (some 0))]
      DAILY_GOAL 2 0 1 CardStatus.upcoming 0 (by decide) (by decide)⟩

/-- Claim C6: the all-time total is invariant under reordering of the
store's entries, and on a store whose date-keyed values are all records
it equals the sum of per-day totals over the date-keyed entries only,
the reserved configuration key excluded. -/
theorem total_all_time_perm_invariant (data d2 : Store)
    (hperm : data.Perm d2)
    (hwf : ∀ p ∈ data, p.1 ≠ Key.url → isRecord p.2 = true) :
    total_solved_all_time data = total_solved_all_time d2 ∧
    total_solved_all_time data = totalAllTime_spec data := by
  constructor
  · unfold total_solved_all_time
    exact List.Perm.sum_eq (List.Perm.map _ (List.Perm.filter _ hperm))
  · have hfil : data.filter (fun p => decide (p.1 ≠ Key.url) && isRecord p.2) =
        data.filter (fun p => decide (p.1 ≠ Key.url)) := by
      apply List.filter_congr
      intro p hp
      by_cases hu : p.1 = Key.url
      · simp [hu]
      · simp [hu, hwf p hp hu]
    unfold total_solved_all_time totalAllTime_spec
    rw [hfil]

/-- Claim C6 (witness): swapping the two entries of a concrete store
leaves the all-time total unchanged and equal to the date-keyed sum. -/
theorem total_all_time_perm_invariant_witness :
    total_solved_all_time
        [(Key.url, StoreValue.strv "u"), (Key.date 0, StoreValue.dictv (some 1) (some 2) none)] =
      total_solved_all_time
        [(Key.date 0, StoreValue.dictv (some 1) (some 2) none), (Key.url, StoreValue.strv "u")] ∧
    total_solved_all_time
        [(Key.url, StoreValue.strv "u"), (Key.date 0, StoreValue.dictv (some 1) (some 2) none)] =
      totalAllTime_spec
        [(Key.url, StoreValue.strv "u"), (Key.date 0, StoreValue.dictv (some 1) (some 2) none)] :=
  total_all_time_perm_invariant _ _
    (List.Perm.swap (Key.date 0, StoreValue.dictv (some 1) (some 2) none)
      (Key.url, StoreValue.strv "u") [])
    (by decide)

/-- Claim C7: the backward walk of `calculate_current_streak` visits at
most today and the 730 days before it: the streak never exceeds 731,
two histories agreeing on the dates `today-730 .. today` give the same
streak, and on the empty history with goal 25 the streak is 0. The
embedding is a total function over an explicit 731-element date list,
so termination holds for every history and goal by construction. -/
theorem streak_bounded_terminates (data d2 : Store) (goal today : Int)
    (hagree : ∀ d : Int, today - 730 ≤ d → d ≤ today →
      storeGet data (Key.date d) = storeGet d2 (Key.date d)) :
    calculate_current_streak data goal today ≤ 731 ∧
    calculate_current_streak data goal today = calculate_current_streak d2 goal today ∧
    calculate_current_streak [] 25 today = 0 := by
  refine ⟨?_, ?_, ?_⟩
  · unfold calculate_current_streak
    have hle := streakFrom_le_length data goal today
      ((List.range 731).map (fun i : Nat => today - (i : Int)))
    rwa [List.length_map, List.length_range] at hle
  · unfold calculate_current_streak
    apply streakFrom_congr
    intro d hd
    obtain ⟨i, hir, hie⟩ := List.mem_map.mp hd
    have hibound : i < 731 := List.mem_range.mp hir
    have h1 : today - 730 ≤ d := by omega
    have h2 : d ≤ today := by omega
    unfold streakSolvedAt
    rw [hagree d h1 h2]
  · exact streak_today_absent [] 25 today rfl (by norm_num)

/-- Claim C7 (witness): the empty history agrees with itself on the
window, and its streak is 0, certainly at most 731. -/
theorem streak_bounded_terminates_witness :
    calculate_current_streak [] 25 0 ≤ 731 ∧
    calculate_current_streak [] 25 0 = calculate_current_streak [] 25 0 ∧
    calculate_current_streak [] 25 0 = 0 :=
  streak_bounded_terminates [] [] 25 0 (fun _ _ _ => rfl)

/-- Claim C8: the load accounts for every entry (migrated or warned
about, so it never aborts); a malformed per-date value is warned about
and excluded from the loaded store (hence from every aggregation over
it), while every entry the migration accepts is still loaded. -/
theorem load_skips_malformed (s : Store) (p : Key × StoreValue) (hp : p ∈ s) :
    ((load_data s).length + (load_warnings s).length = s.length) ∧
    (migrateEntry p = none → p.1 ∈ load_warnings s ∧ p ∉ load_data s) ∧
    (∀ q : Key × StoreValue, migrateEntry p = some q → q ∈ load_data s) := by
  refine ⟨load_data_accounting s, ?_, ?_⟩
  · intro hnone
    refine ⟨?_, ?_⟩
    · unfold load_warnings
      exact List.mem_map.mpr ⟨p, List.mem_filter.mpr ⟨hp, by simp [hnone]⟩, rfl⟩
    · intro hmem
      obtain ⟨k1, v1⟩ := p
      cases k1 with
      | url => exact Option.noConfusion hnone
      | date d =>
        obtain ⟨e, m, h, hv⟩ :=
          load_data_shape s (Key.date d) v1 hmem (fun hh => Key.noConfusion hh)
        subst hv
        exact Option.noConfusion hnone
  · intro q hq
    exact List.mem_filterMap.mpr ⟨p, hp, hq⟩

/-- Claim C8 (witness): a malformed string entry is warned about and
dropped while the legacy integer entry beside it is still loaded. -/
theorem load_skips_malformed_witness :
    (((load_data [(Key.date 0, StoreValue.strv "bad"), (Key.date 1, StoreValue.intv 3)]).length +
        (load_warnings [(Key.date 0, StoreValue.strv "bad"), (Key.date 1, StoreValue.intv 3)]).length) =
      ([(Key.date 0, StoreValue.strv "bad"), (Key.date 1, StoreValue.intv 3)] : Store).length) ∧
    (migrateEntry (Key.date 0, StoreValue.strv "bad") = none →
      Key.date 0 ∈ load_warnings [(Key.date 0, StoreValue.strv "bad"), (Key.date 1, StoreValue.intv 3)] ∧
      (Key.date 0, StoreValue.strv "bad") ∉
        load_data [(Key.date 0, StoreValue.strv "bad"), (Key.date 1, StoreValue.intv 3)]) ∧
    (∀ q : Key × StoreValue, migrateEntry (Key.date 0, StoreValue.strv "bad") = some q →
      q ∈ load_data [(Key.date 0, StoreValue.strv "bad"), (Key.date 1, StoreValue.intv 3)]) :=
  load_skips_malformed
    [(Key.date 0, StoreValue.strv "bad"), (Key.date 1, StoreValue.intv 3)]
    (Key.date 0, StoreValue.strv "bad") (by decide)

/-- Claim C9: with the date picker's bound `selected_date ≤ today` as a
hypothesis, the daily-log save path leaves every strictly future date
key untouched and writes no key other than the selected date's, and the
list-URL path writes no key other than the reserved configuration key. -/
theorem save_paths_keys (data : Store) (d today easy medium hard : Int) (u : String)
    (hd : d ≤ today) :
    (∀ d2 : Int, today < d2 →
      storeGet (save_progress data d easy medium hard) (Key.date d2) =
        storeGet data (Key.date d2)) ∧
    (∀ k, k ∈ (save_progress data d easy medium hard).map Prod.fst →
      k ∈ data.map Prod.fst ∨ k = Key.date d) ∧
    (∀ k, k ∈ (update_leetcode_list_url data u).map Prod.fst →
      k ∈ data.map Prod.fst ∨ k = Key.url) := by
  refine ⟨?_, ?_, ?_⟩
  · intro d2 h2
    apply storeGet_storeSet_ne
    intro he
    have h3 := Key.date.inj he
    omega
  · exact storeSet_keys data _ _
  · exact storeSet_keys data _ _

/-- Claim C9 (witness): saving counts for today itself on a store that
holds only the reserved key. -/
theorem save_paths_keys_witness :
    (0 : Int) ≤ 0 ∧
    ((∀ d2 : Int, 0 < d2 →
        storeGet (save_progress [(Key.url, StoreValue.strv "u")] 0 1 2 3) (Key.date d2) =
          storeGet [(Key.url, StoreValue.strv "u")] (Key.date d2)) ∧
      (∀ k, k ∈ (save_progress [(Key.url, StoreValue.strv "u")] 0 1 2 3).map Prod.fst →
        k ∈ ([(Key.url, StoreValue.strv "u")] : Store).map Prod.fst ∨ k = Key.date 0) ∧
      (∀ k, k ∈ (update_leetcode_list_url [(Key.url, StoreValue.strv "u")] "w").map Prod.fst →
        k ∈ ([(Key.url, StoreValue.strv "u")] : Store).map Prod.fst ∨ k = Key.url)) :=
  ⟨by decide, save_paths_keys [(Key.url, StoreValue.strv "u")] 0 0 1 2 3 "w" (by decide)⟩

/-- Claim C10: with no stored document for a logged-in user, the loaded
store is not empty: it holds exactly the reserved key with the default
list URL, has no date key, and every date-keyed aggregation over it
yields 0 (all-time total, solved today, and the streak at goal 25). -/
theorem fresh_store_default :
    get_user_data_from_firestore true none ≠ [] ∧
    get_user_data_from_firestore true none =
      [(Key.url, StoreValue.strv "https://leetcode.com/problem-list/n7bysmt7/")] ∧
    (∀ d : Int, storeGet (get_user_data_from_firestore true none) (Key.date d) = none) ∧
    total_solved_all_time (get_user_data_from_firestore true none) = 0 ∧
    (∀ t : Int, questions_solved_today (get_user_data_from_firestore true none) t = some 0) ∧
    (∀ t : Int,
      calculate_current_streak (get_user_data_from_firestore true none) DAILY_GOAL t = 0) := by
  refine ⟨by decide, rfl, ?_, by decide, ?_, ?_⟩
  · intro d
    simp [get_user_data_from_firestore, storeGet]
  · intro t
    simp [questions_solved_today, get_user_data_from_firestore, storeGet]
  · intro t
    exact streak_today_absent _ _ t
      (by simp [get_user_data_from_firestore, storeGet]) (by norm_num [DAILY_GOAL])

end Tracker
